import Mathlib

/-!
Verification of the AgroScan-IPE analysis pipeline (src/main.py).

Shallow embedding conventions:
* Python floats are modelled as rationals (`ℚ`); every comparison in the
  source is an exact order comparison, so this is faithful for the rule
  thresholds.
* A Python value that may be `None` is modelled as `Option`.
* A `reduceRegion(...).get(key)` / `getInfo()` result whose reduction is
  null (no observations over the polygon) is modelled as the `Option`
  being `none`; `x or 0` and `dict.get(key, 0)` are modelled by
  `pyOrZero` and `Option.getD 0` respectively.
* Code that catches all exceptions and returns an error record is
  modelled by parametrising the collector over an optional raised
  exception message.
-/

namespace AgroScan

/-- Python `x or 0` on an optional number: `None` and `0` both map to `0`. -/
def pyOrZero (x : Option ℚ) : ℚ :=
  match x with
  | none => 0
  | some v => if v = 0 then 0 else v

/-- Python `x or []` on an optional list: `None` and `[]` both map to `[]`. -/
def pyOrNil (x : Option (List ℚ)) : List ℚ :=
  match x with
  | none => []
  | some l => l

/-- The consolidated metrics dictionary built in `process_single_farm`
(src/main.py lines 496-504); it always carries exactly these seven keys. -/
structure MetricsRecord where
  precipitation_sum_7d : ℚ
  precipitation_sum_30d : ℚ
  ndvi_mean : ℚ
  nbr_mean : ℚ
  rvi_mean : ℚ
  ndvi_series : List ℚ
  recent_vv_values : List ℚ
deriving Repr, DecidableEq

/-- Message returned by `PrescriptionEngine.analyze_fire_risk`. -/
def fireRiskMsg : String :=
  "URGENTE: Inspeção de Incêndio/Queimada na área."

/-- Message returned by `PrescriptionEngine.analyze_water_stress` when the
precipitation over the last 7 days exceeds 20 mm. -/
def nutritionalMsg : String :=
  "ALERTA NUTRICIONAL: Queda contínua de vigor com solo úmido. Realizar amostragem de solo."

/-- Message returned by `PrescriptionEngine.analyze_water_stress` when the
precipitation over the last 7 days is at most 20 mm. -/
def waterStressMsg : String :=
  "ALERTA DE ESTRESSE: Queda de vigor associada à falta de chuvas."

/-- Message returned by `PrescriptionEngine.analyze_irrigation_need`. -/
def irrigationMsg : String :=
  "AÇÃO AUTOMATIZADA: Solo permanentemente seco. Sugestão de acionamento de sistema de irrigação."

/-- Message appended by `generate_prescription` when no rule fired. -/
def normalMsg : String :=
  "Monitoramento Normal - Sem ações urgentes requeridas."

/-- `PrescriptionEngine.analyze_fire_risk` (src/main.py lines 302-307);
the threshold `0.1` is the rational `mkRat 1 10`. -/
def analyze_fire_risk (nbr_value : ℚ) : Option String :=
  if nbr_value < mkRat 1 10 then some fireRiskMsg else none

/-- `all(recent_values[i] > recent_values[i+1] for i in range(len(recent_values)-1))`
(src/main.py lines 317-320). Out-of-range indices default to `0`, but the
generator only ranges over in-bounds indices. -/
def is_declining (recent_values : List ℚ) : Bool :=
  (List.range (recent_values.length - 1)).all
    (fun i => decide (recent_values.getD i 0 > recent_values.getD (i + 1) 0))

/-- `PrescriptionEngine.analyze_water_stress` (src/main.py lines 309-328);
`ndvi_series[-3:]` is `drop (length - 3)`, and the Python local
`recent_values` is inlined. -/
def analyze_water_stress (ndvi_series : List ℚ) (precipitation_7d : ℚ) : Option String :=
  if ndvi_series.length < 3 then none
  else
    if is_declining (ndvi_series.drop (ndvi_series.length - 3)) then
      if precipitation_7d > 20 then some nutritionalMsg
      else some waterStressMsg
    else none

/-- `PrescriptionEngine.analyze_irrigation_need` (src/main.py lines 330-342);
the Python local `vv_below_threshold` is inlined. -/
def analyze_irrigation_need (vv_values : List ℚ) (precipitation_7d : ℚ) : Option String :=
  if vv_values.length < 3 then none
  else
    if vv_values.all (fun vv => decide (vv < -14)) ∧ precipitation_7d < 10 then
      some irrigationMsg
    else none

/-- `PrescriptionEngine.generate_prescription` (src/main.py lines 344-374):
each rule's alert is appended when present, and if no rule fired the single
normal-status message is the whole output. -/
def generate_prescription (data : MetricsRecord) : List String :=
  let prescriptions :=
    (analyze_fire_risk data.nbr_mean).toList
      ++ (analyze_water_stress data.ndvi_series data.precipitation_sum_7d).toList
      ++ (analyze_irrigation_need data.recent_vv_values data.precipitation_sum_7d).toList
  if prescriptions.isEmpty then [normalMsg] else prescriptions

/-! ### Signal collectors and consolidation (src/main.py lines 141-297, 474-537)

Each collector wraps its body in a catch-all handler: a raised exception
yields an error record carrying the message, anything else the success
record. The external region reductions are inputs here (`none` = the
reduction produced null / the key is absent from the returned dictionary). -/

/-- Return value of `AgroDataProcessor.get_precipitation_data`: the success
dictionary with the two sums, or the error dictionary. -/
inductive PrecipResult where
  | success (precipitation_sum_7d precipitation_sum_30d : ℚ)
  | error (msg : String)
deriving Repr, DecidableEq

/-- The `radar_stats` dictionary obtained from the radar region reduction;
each key may be absent. -/
structure RadarStats where
  VV : Option ℚ
  VH : Option ℚ
  RVI : Option ℚ
deriving Repr, DecidableEq

/-- The `optical_stats` dictionary obtained from the optical region
reduction; each key may be absent. -/
structure OpticalStats where
  NDVI : Option ℚ
  NBR : Option ℚ
deriving Repr, DecidableEq

/-- Return value of `AgroDataProcessor.get_radar_data`. -/
inductive RadarResult where
  | success (vv_mean vh_mean rvi_mean : ℚ) (recent_vv_values : List ℚ)
  | error (msg : String)
deriving Repr, DecidableEq

/-- Return value of `AgroDataProcessor.get_optical_data`. -/
inductive OpticalResult where
  | success (ndvi_mean nbr_mean : ℚ) (ndvi_series : List ℚ)
  | error (msg : String)
deriving Repr, DecidableEq

/-- `AgroDataProcessor.get_precipitation_data` (src/main.py lines 149-188):
`raised` is the exception caught by the handler, the two options are the
7-day and 30-day reductions, each defaulted with Python `or 0`. -/
def get_precipitation_data (raised : Option String)
    (precip_7d precip_30d : Option ℚ) : PrecipResult :=
  match raised with
  | some e => PrecipResult.error e
  | none => PrecipResult.success (pyOrZero precip_7d) (pyOrZero precip_30d)

/-- `AgroDataProcessor.get_radar_data` (src/main.py lines 190-248): the
statistics dictionary is read with `dict.get(key, 0)`; `vv_values` holds the
successfully fetched recent VV readings (the inner handler skips failures). -/
def get_radar_data (raised : Option String) (radar_stats : RadarStats)
    (vv_values : List ℚ) : RadarResult :=
  match raised with
  | some e => RadarResult.error e
  | none =>
    RadarResult.success (radar_stats.VV.getD 0) (radar_stats.VH.getD 0)
      (radar_stats.RVI.getD 0) vv_values

/-- `AgroDataProcessor.get_optical_data` (src/main.py lines 250-297): the
statistics dictionary is read with `dict.get(key, 0)` and the NDVI series is
defaulted with Python `or []`. -/
def get_optical_data (raised : Option String) (optical_stats : OpticalStats)
    (ndvi_list : Option (List ℚ)) : OpticalResult :=
  match raised with
  | some e => OpticalResult.error e
  | none =>
    OpticalResult.success (optical_stats.NDVI.getD 0) (optical_stats.NBR.getD 0)
      (pyOrNil ndvi_list)

/-- `precipitation_data.get('precipitation_sum_7d', 0)`: the error dictionary
has no such key, so the default 0 is used. -/
def PrecipResult.precip7d : PrecipResult → ℚ
  | .success p7 _ => p7
  | .error _ => 0

/-- `precipitation_data.get('precipitation_sum_30d', 0)`. -/
def PrecipResult.precip30d : PrecipResult → ℚ
  | .success _ p30 => p30
  | .error _ => 0

/-- `radar_data.get('vv_mean', 0)` (reading the collector's own record). -/
def RadarResult.vv_mean : RadarResult → ℚ
  | .success vv _ _ _ => vv
  | .error _ => 0

/-- `radar_data.get('vh_mean', 0)`. -/
def RadarResult.vh_mean : RadarResult → ℚ
  | .success _ vh _ _ => vh
  | .error _ => 0

/-- `radar_data.get('rvi_mean', 0)`. -/
def RadarResult.rvi_mean : RadarResult → ℚ
  | .success _ _ rvi _ => rvi
  | .error _ => 0

/-- `radar_data.get('recent_vv_values', [])`. -/
def RadarResult.recent_vv_values : RadarResult → List ℚ
  | .success _ _ _ vs => vs
  | .error _ => []

/-- `optical_data.get('ndvi_mean', 0)`. -/
def OpticalResult.ndvi_mean : OpticalResult → ℚ
  | .success n _ _ => n
  | .error _ => 0

/-- `optical_data.get('nbr_mean', 0)`. -/
def OpticalResult.nbr_mean : OpticalResult → ℚ
  | .success _ n _ => n
  | .error _ => 0

/-- `optical_data.get('ndvi_series', [])`. -/
def OpticalResult.ndvi_series : OpticalResult → List ℚ
  | .success _ _ s => s
  | .error _ => []

/-- The `consolidated_data` dictionary of `process_single_farm`
(src/main.py lines 496-504). -/
def consolidate (precipitation_data : PrecipResult) (radar_data : RadarResult)
    (optical_data : OpticalResult) : MetricsRecord :=
  MetricsRecord.mk precipitation_data.precip7d precipitation_data.precip30d
    optical_data.ndvi_mean optical_data.nbr_mean radar_data.rvi_mean
    optical_data.ndvi_series radar_data.recent_vv_values

/-! ### History persistence (src/main.py lines 95-127, 509-521) -/

/-- The history document written by `FirestoreManager.save_analysis_result`
(its timestamp field is omitted). -/
structure AnalysisDoc where
  dados_earth_engine : MetricsRecord
  prescricoes : List String
  email_enviado : Bool
deriving Repr, DecidableEq

/-- `FirestoreManager.save_analysis_result` (src/main.py lines 95-127)
builds the history document; note `'email_enviado': True` is a literal. -/
def save_analysis_result (analysis_data : MetricsRecord)
    (prescriptions : List String) : AnalysisDoc :=
  AnalysisDoc.mk analysis_data prescriptions true

/-- The history entry stored by `process_single_farm` (src/main.py lines
509-514): the computed `email_sent` flag is not passed on to
`save_analysis_result`. -/
def process_single_farm_history (consolidated : MetricsRecord)
    (prescriptions : List String) ( _email_sent : Bool) : AnalysisDoc :=
  save_analysis_result consolidated prescriptions

/-! ### HTTP endpoints (src/main.py lines 539-667) -/

/-- Parsed registration payload; each field may be missing. Coordinates are
(longitude, latitude) pairs. -/
structure RegistrationRequest where
  email : Option String
  nome_fazenda : Option String
  coordinates : Option (List (ℚ × ℚ))
deriving Repr, DecidableEq

/-- Python truthiness of an optional string (`None` and `""` are falsy). -/
def pyTruthyStr (x : Option String) : Bool :=
  match x with
  | none => false
  | some s => !s.isEmpty

/-- Python truthiness of an optional coordinate list (`None` and `[]` are
falsy; any non-empty list, of any length, is truthy). -/
def pyTruthyCoords (x : Option (List (ℚ × ℚ))) : Bool :=
  match x with
  | none => false
  | some l => !l.isEmpty

/-- Return value of `process_single_farm` (src/main.py lines 474-537). -/
inductive FarmResult where
  | success (farm_id farm_name : String) (email_sent analysis_saved : Bool)
      (prescriptions : List String)
  | error (farm_id farm_name err : String)
deriving Repr, DecidableEq

/-- The `status` field of a `process_single_farm` result. -/
def FarmResult.statusStr : FarmResult → String
  | .success .. => "success"
  | .error .. => "error"

/-- Whether `result['status'] == 'success'`. -/
def FarmResult.isSuccess : FarmResult → Bool
  | .success .. => true
  | .error .. => false

/-- Response of the `agroscan_monitor` endpoint (src/main.py lines 539-597):
400 for missing data, 500 when the farm cannot be saved, otherwise 200 with
the embedded first-analysis result. -/
inductive MonitorResponse where
  | badRequest (err : String)
  | saveFailed (err : String)
  | registered (farm_id : String) (analysis_result : FarmResult)
deriving Repr, DecidableEq

/-- HTTP status code of each response branch. -/
def MonitorResponse.code : MonitorResponse → ℕ
  | .badRequest _ => 400
  | .saveFailed _ => 500
  | .registered _ _ => 200

/-- The `status` key of the response body, when present. -/
def MonitorResponse.statusStr : MonitorResponse → Option String
  | .registered _ _ => some "success"
  | _ => none

/-- The fixed success message of the 200 response. -/
def successMessage : String :=
  "Fazenda cadastrada e primeira análise realizada com sucesso"

/-- The `message` key of the response body, when present. -/
def MonitorResponse.message : MonitorResponse → Option String
  | .registered _ _ => some successMessage
  | _ => none

/-- `agroscan_monitor` (src/main.py lines 539-597), parametrised over the
outcome of `FirestoreManager.save_farm` and over `process_single_farm`
(which never raises). The only input validation is
`if not all([email, farm_name, coordinates])`. -/
def agroscan_monitor (request_json : Option RegistrationRequest)
    (save_farm : Except String String) (process : String → FarmResult) :
    MonitorResponse :=
  match request_json with
  | none => MonitorResponse.badRequest "Dados não fornecidos"
  | some req =>
    if !(pyTruthyStr req.email && pyTruthyStr req.nome_fazenda
          && pyTruthyCoords req.coordinates) then
      MonitorResponse.badRequest "Dados incompletos"
    else
      match save_farm with
      | Except.error e => MonitorResponse.saveFailed e
      | Except.ok farm_id => MonitorResponse.registered farm_id (process farm_id)

/-- A stored farm as returned by `FirestoreManager.get_active_farms`. -/
structure Farm where
  farm_id : String
  email : String
  nome_fazenda : String
  coordinates : List (ℚ × ℚ)
deriving Repr, DecidableEq

/-- Outcome of one `process_single_farm` call inside the batch loop: the
function returned a result, or it raised (caught by the loop's handler). -/
inductive ProcessOutcome where
  | returned (r : FarmResult)
  | raised (e : String)
deriving Repr, DecidableEq

/-- The per-farm entry the `daily_monitoring` loop appends: the returned
result, or the error record built in the loop's except branch
(src/main.py lines 636-644). -/
def farmEntry (farm : Farm) : ProcessOutcome → FarmResult
  | .returned r => r
  | .raised e => FarmResult.error farm.farm_id farm.nome_fazenda e

/-- The `daily_monitoring` loop (src/main.py lines 621-644): per-farm
results in order, plus the success and error counters. -/
def monitorLoop (process : Farm → ProcessOutcome) :
    List Farm → List FarmResult × ℕ × ℕ
  | [] => ([], 0, 0)
  | farm :: rest =>
    let entry := farmEntry farm (process farm)
    let tailRes := monitorLoop process rest
    (entry :: tailRes.1,
      (if entry.isSuccess then 1 else 0) + tailRes.2.1,
      (if entry.isSuccess then 0 else 1) + tailRes.2.2)

/-- The JSON summary returned by `daily_monitoring`; keys that a branch does
not emit are `none`. -/
structure DailySummary where
  status : String
  message : String
  farms_processed : Option ℕ
  total_farms : Option ℕ
  successful_analyses : Option ℕ
  error_analyses : Option ℕ
  results : Option (List FarmResult)
deriving Repr, DecidableEq

/-- `daily_monitoring` (src/main.py lines 599-667), parametrised over the
per-farm processing outcome; nothing in the loop escapes, so the outer
handler's 500 branch is unreachable. -/
def daily_monitoring (process : Farm → ProcessOutcome)
    (active_farms : List Farm) : DailySummary :=
  if active_farms.isEmpty then
    DailySummary.mk "success" "Nenhuma fazenda ativa encontrada"
      (some 0) none none none none
  else
    let loopRes := monitorLoop process active_farms
    DailySummary.mk "success" "Monitoramento diário concluído" none
      (some active_farms.length) (some loopRes.2.1) (some loopRes.2.2)
      (some loopRes.1)

/-! ### Helper lemmas about the prescription engine -/

lemma mkRat_one_ten : mkRat 1 10 = (1 : ℚ) / 10 := by
  norm_num [Rat.mkRat_eq_div]

lemma fireRiskMsg_ne_nutritionalMsg : fireRiskMsg ≠ nutritionalMsg := by decide

lemma fireRiskMsg_ne_waterStressMsg : fireRiskMsg ≠ waterStressMsg := by decide

lemma fireRiskMsg_ne_irrigationMsg : fireRiskMsg ≠ irrigationMsg := by decide

lemma fireRiskMsg_ne_normalMsg : fireRiskMsg ≠ normalMsg := by decide

lemma nutritionalMsg_ne_waterStressMsg : nutritionalMsg ≠ waterStressMsg := by decide

lemma nutritionalMsg_ne_irrigationMsg : nutritionalMsg ≠ irrigationMsg := by decide

lemma nutritionalMsg_ne_normalMsg : nutritionalMsg ≠ normalMsg := by decide

lemma waterStressMsg_ne_irrigationMsg : waterStressMsg ≠ irrigationMsg := by decide

lemma waterStressMsg_ne_normalMsg : waterStressMsg ≠ normalMsg := by decide

lemma irrigationMsg_ne_normalMsg : irrigationMsg ≠ normalMsg := by decide

/-- A string is in the output of `generate_prescription` exactly when one of
the three analyzers produced it, or no analyzer fired and it is the
normal-status message. -/
lemma mem_generate_iff (r : MetricsRecord) (s : String) :
    s ∈ generate_prescription r ↔
      (analyze_fire_risk r.nbr_mean = some s
        ∨ analyze_water_stress r.ndvi_series r.precipitation_sum_7d = some s
        ∨ analyze_irrigation_need r.recent_vv_values r.precipitation_sum_7d = some s)
      ∨ (analyze_fire_risk r.nbr_mean = none
          ∧ analyze_water_stress r.ndvi_series r.precipitation_sum_7d = none
          ∧ analyze_irrigation_need r.recent_vv_values r.precipitation_sum_7d = none
          ∧ s = normalMsg) := by
  unfold generate_prescription
  rcases hF : analyze_fire_risk r.nbr_mean with _ | f <;>
    rcases hW : analyze_water_stress r.ndvi_series r.precipitation_sum_7d with _ | w <;>
      rcases hI : analyze_irrigation_need r.recent_vv_values r.precipitation_sum_7d with _ | i <;>
        simp [eq_comm]

lemma fire_some_iff (n : ℚ) (s : String) :
    analyze_fire_risk n = some s ↔ n < mkRat 1 10 ∧ s = fireRiskMsg := by
  unfold analyze_fire_risk
  split_ifs with h <;> simp_all [eq_comm]

lemma fire_none_iff (n : ℚ) :
    analyze_fire_risk n = none ↔ ¬ n < mkRat 1 10 := by
  unfold analyze_fire_risk
  split_ifs with h <;> simp_all

/-- `is_declining` agrees with the Mathlib pairwise-adjacent predicate. -/
lemma is_declining_iff_chain (l : List ℚ) :
    is_declining l = true ↔ List.Chain' (fun a b : ℚ => a > b) l := by
  rw [List.chain'_iff_get]
  simp only [is_declining, List.all_eq_true, List.mem_range, decide_eq_true_eq]
  constructor
  · intro h i hi
    have h1 : i < l.length := by omega
    have h2 : i + 1 < l.length := by omega
    have hx := h i hi
    simpa [List.getD_eq_getElem?_getD, List.getElem?_eq_getElem, h1, h2,
      List.get_eq_getElem] using hx
  · intro h i hi
    have h1 : i < l.length := by omega
    have h2 : i + 1 < l.length := by omega
    have hx := h i hi
    simpa [List.getD_eq_getElem?_getD, List.getElem?_eq_getElem, h1, h2,
      List.get_eq_getElem] using hx

lemma water_some_iff (series : List ℚ) (p : ℚ) (s : String) :
    analyze_water_stress series p = some s ↔
      3 ≤ series.length
      ∧ List.Chain' (fun a b : ℚ => a > b) (series.drop (series.length - 3))
      ∧ ((p > 20 ∧ s = nutritionalMsg) ∨ (¬ p > 20 ∧ s = waterStressMsg)) := by
  unfold analyze_water_stress
  rw [← is_declining_iff_chain]
  split_ifs with h1 h2 h3
  · exact iff_of_false (by simp) (fun h => absurd h.1 (by omega))
  · constructor
    · intro h
      rw [Option.some_inj] at h
      exact ⟨by omega, h2, Or.inl ⟨h3, h.symm⟩⟩
    · rintro ⟨-, -, ⟨-, rfl⟩ | ⟨hnp, rfl⟩⟩
      · rfl
      · exact absurd h3 hnp
  · constructor
    · intro h
      rw [Option.some_inj] at h
      exact ⟨by omega, h2, Or.inr ⟨h3, h.symm⟩⟩
    · rintro ⟨-, -, ⟨hp, rfl⟩ | ⟨-, rfl⟩⟩
      · exact absurd hp h3
      · rfl
  · exact iff_of_false (by simp) (fun h => absurd h.2.1 h2)

lemma water_none_iff (series : List ℚ) (p : ℚ) :
    analyze_water_stress series p = none ↔
      ¬ (3 ≤ series.length
          ∧ List.Chain' (fun a b : ℚ => a > b) (series.drop (series.length - 3))) := by
  unfold analyze_water_stress
  rw [← is_declining_iff_chain]
  split_ifs with h1 h2 h3
  · exact iff_of_true rfl (fun h => absurd h.1 (by omega))
  · exact iff_of_false (by simp) (fun h => h ⟨by omega, h2⟩)
  · exact iff_of_false (by simp) (fun h => h ⟨by omega, h2⟩)
  · exact iff_of_true rfl (fun h => absurd h.2 h2)

lemma irrigation_some_iff (vs : List ℚ) (p : ℚ) (s : String) :
    analyze_irrigation_need vs p = some s ↔
      3 ≤ vs.length ∧ (∀ v ∈ vs, v < -14) ∧ p < 10 ∧ s = irrigationMsg := by
  unfold analyze_irrigation_need
  split_ifs with h1 h2
  · exact iff_of_false (by simp) (fun h => absurd h.1 (by omega))
  · constructor
    · intro h
      rw [Option.some_inj] at h
      refine ⟨by omega, fun v hv => ?_, h2.2, h.symm⟩
      exact decide_eq_true_eq.mp (List.all_eq_true.mp h2.1 v hv)
    · rintro ⟨-, -, -, rfl⟩
      rfl
  · refine iff_of_false (by simp) (fun h => h2 ⟨?_, h.2.2.1⟩)
    exact List.all_eq_true.mpr (fun v hv => decide_eq_true (h.2.1 v hv))

lemma irrigation_none_iff (vs : List ℚ) (p : ℚ) :
    analyze_irrigation_need vs p = none ↔
      ¬ (3 ≤ vs.length ∧ (∀ v ∈ vs, v < -14) ∧ p < 10) := by
  unfold analyze_irrigation_need
  split_ifs with h1 h2
  · exact iff_of_true rfl (fun h => absurd h.1 (by omega))
  · refine iff_of_false (by simp) (fun h => ?_)
    refine h ⟨by omega, fun v hv => ?_, h2.2⟩
    exact decide_eq_true_eq.mp (List.all_eq_true.mp h2.1 v hv)
  · refine iff_of_true rfl (fun h => h2 ⟨?_, h.2.2⟩)
    exact List.all_eq_true.mpr (fun v hv => decide_eq_true (h.2.1 v hv))

/-- Membership characterisation for the irrigation alert, over any record. -/
lemma irrigation_mem_iff (r : MetricsRecord) :
    irrigationMsg ∈ generate_prescription r ↔
      3 ≤ r.recent_vv_values.length
      ∧ (∀ v ∈ r.recent_vv_values, v < -14)
      ∧ r.precipitation_sum_7d < 10 := by
  rw [mem_generate_iff]
  constructor
  · rintro ((h | h | h) | h)
    · exact absurd (fire_some_iff _ _ |>.mp h).2 fireRiskMsg_ne_irrigationMsg.symm
    · rcases (water_some_iff _ _ _ |>.mp h).2.2 with ⟨_, hs⟩ | ⟨_, hs⟩
      · exact absurd hs nutritionalMsg_ne_irrigationMsg.symm
      · exact absurd hs waterStressMsg_ne_irrigationMsg.symm
    · have := irrigation_some_iff _ _ _ |>.mp h
      exact ⟨this.1, this.2.1, this.2.2.1⟩
    · exact absurd h.2.2.2 irrigationMsg_ne_normalMsg
  · intro h
    exact Or.inl (Or.inr (Or.inr (irrigation_some_iff _ _ _ |>.mpr ⟨h.1, h.2.1, h.2.2, rfl⟩)))

/-- Membership characterisation for the two stress variants, over any record. -/
lemma stress_mem_iff (r : MetricsRecord) :
    (nutritionalMsg ∈ generate_prescription r ↔
      3 ≤ r.ndvi_series.length
      ∧ List.Chain' (fun a b : ℚ => a > b) (r.ndvi_series.drop (r.ndvi_series.length - 3))
      ∧ r.precipitation_sum_7d > 20)
    ∧ (waterStressMsg ∈ generate_prescription r ↔
      3 ≤ r.ndvi_series.length
      ∧ List.Chain' (fun a b : ℚ => a > b) (r.ndvi_series.drop (r.ndvi_series.length - 3))
      ∧ ¬ r.precipitation_sum_7d > 20) := by
  constructor
  · rw [mem_generate_iff]
    constructor
    · rintro ((h | h | h) | h)
      · exact absurd (fire_some_iff _ _ |>.mp h).2 fireRiskMsg_ne_nutritionalMsg.symm
      · have := water_some_iff _ _ _ |>.mp h
        rcases this.2.2 with ⟨hp, _⟩ | ⟨_, hs⟩
        · exact ⟨this.1, this.2.1, hp⟩
        · exact absurd hs nutritionalMsg_ne_waterStressMsg
      · exact absurd (irrigation_some_iff _ _ _ |>.mp h).2.2.2 nutritionalMsg_ne_irrigationMsg
      · exact absurd h.2.2.2 nutritionalMsg_ne_normalMsg
    · intro h
      exact Or.inl (Or.inr (Or.inl
        (water_some_iff _ _ _ |>.mpr ⟨h.1, h.2.1, Or.inl ⟨h.2.2, rfl⟩⟩)))
  · rw [mem_generate_iff]
    constructor
    · rintro ((h | h | h) | h)
      · exact absurd (fire_some_iff _ _ |>.mp h).2 fireRiskMsg_ne_waterStressMsg.symm
      · have := water_some_iff _ _ _ |>.mp h
        rcases this.2.2 with ⟨_, hs⟩ | ⟨hp, _⟩
        · exact absurd hs nutritionalMsg_ne_waterStressMsg.symm
        · exact ⟨this.1, this.2.1, hp⟩
      · exact absurd (irrigation_some_iff _ _ _ |>.mp h).2.2.2 waterStressMsg_ne_irrigationMsg
      · exact absurd h.2.2.2 waterStressMsg_ne_normalMsg
    · intro h
      exact Or.inl (Or.inr (Or.inl
        (water_some_iff _ _ _ |>.mpr ⟨h.1, h.2.1, Or.inr ⟨h.2.2, rfl⟩⟩)))

/-! ### Claims C1-C4: the prescription engine -/

/-- C1: for every `MetricsRecord`, the fire-risk prescription appears in the
output of `generate_prescription` if and only if `nbr_mean < 0.1`, regardless
of the values of every other field: the rule is independent of, and not
short-circuited by, the other rules. -/
theorem fire_risk_rule_iff (r : MetricsRecord) :
    fireRiskMsg ∈ generate_prescription r ↔ r.nbr_mean < (1 : ℚ) / 10 := by
  rw [← mkRat_one_ten, mem_generate_iff]
  constructor
  · rintro ((h | h | h) | h)
    · exact (fire_some_iff _ _ |>.mp h).1
    · rcases (water_some_iff _ _ _ |>.mp h).2.2 with ⟨-, hs⟩ | ⟨-, hs⟩
      · exact absurd hs fireRiskMsg_ne_nutritionalMsg
      · exact absurd hs fireRiskMsg_ne_waterStressMsg
    · exact absurd (irrigation_some_iff _ _ _ |>.mp h).2.2.2 fireRiskMsg_ne_irrigationMsg
    · exact absurd h.2.2.2 fireRiskMsg_ne_normalMsg
  · intro h
    exact Or.inl (Or.inl (fire_some_iff _ _ |>.mpr ⟨h, rfl⟩))

/-- C2: the stress prescription fires exactly when `ndvi_series` has at least
3 entries and its last 3 entries are strictly decreasing pairwise; when it
fires, the nutritional-stress variant is emitted if `precipitation_7d > 20`
and the water-stress variant otherwise; for a series of length < 3 neither
variant ever appears. -/
theorem stress_rule_characterization (r : MetricsRecord) :
    (nutritionalMsg ∈ generate_prescription r ↔
      3 ≤ r.ndvi_series.length
      ∧ List.Chain' (fun a b : ℚ => a > b) (r.ndvi_series.drop (r.ndvi_series.length - 3))
      ∧ r.precipitation_sum_7d > 20)
    ∧ (waterStressMsg ∈ generate_prescription r ↔
      3 ≤ r.ndvi_series.length
      ∧ List.Chain' (fun a b : ℚ => a > b) (r.ndvi_series.drop (r.ndvi_series.length - 3))
      ∧ ¬ r.precipitation_sum_7d > 20)
    ∧ (r.ndvi_series.length < 3 →
        nutritionalMsg ∉ generate_prescription r ∧ waterStressMsg ∉ generate_prescription r) := by
  refine ⟨(stress_mem_iff r).1, (stress_mem_iff r).2, fun h => ⟨?_, ?_⟩⟩
  · rw [(stress_mem_iff r).1]
    rintro ⟨h3, -, -⟩
    omega
  · rw [(stress_mem_iff r).2]
    rintro ⟨h3, -, -⟩
    omega

/-- Witness for C2, at the spec's own examples: `ndvi_series = [0.6, 0.5, 0.4]`
with precipitation 25 gives the nutritional variant and with 5 the water
variant, while a 2-entry series never fires the rule. -/
theorem stress_rule_characterization_witness :
    (nutritionalMsg ∉ generate_prescription
        ⟨25, 0, 0, 1, 0, [mkRat 6 10, mkRat 5 10], []⟩
      ∧ waterStressMsg ∉ generate_prescription
        ⟨25, 0, 0, 1, 0, [mkRat 6 10, mkRat 5 10], []⟩)
    ∧ generate_prescription
        ⟨25, 0, 0, 1, 0, [mkRat 6 10, mkRat 5 10, mkRat 4 10], []⟩ = [nutritionalMsg]
    ∧ generate_prescription
        ⟨5, 0, 0, 1, 0, [mkRat 6 10, mkRat 5 10, mkRat 4 10], []⟩ = [waterStressMsg] :=
  ⟨(stress_rule_characterization _).2.2 (by decide), by decide, by decide⟩

/-- C3: the irrigation-action prescription fires exactly when
`recent_vv_values` has at least 3 entries, every entry is strictly below -14,
and `precipitation_7d < 10`; a series with fewer than 3 entries never fires
the rule, and raising any single entry to -10 suppresses it. -/
theorem irrigation_rule_characterization (r : MetricsRecord) :
    (irrigationMsg ∈ generate_prescription r ↔
      3 ≤ r.recent_vv_values.length
      ∧ (∀ v ∈ r.recent_vv_values, v < -14)
      ∧ r.precipitation_sum_7d < 10)
    ∧ (r.recent_vv_values.length < 3 → irrigationMsg ∉ generate_prescription r)
    ∧ (∀ i, i < r.recent_vv_values.length →
        irrigationMsg ∉ generate_prescription
          (MetricsRecord.mk r.precipitation_sum_7d r.precipitation_sum_30d r.ndvi_mean
            r.nbr_mean r.rvi_mean r.ndvi_series (r.recent_vv_values.set i (-10)))) := by
  refine ⟨irrigation_mem_iff r, fun h => ?_, fun i hi => ?_⟩
  · rw [irrigation_mem_iff]
    rintro ⟨h3, -, -⟩
    omega
  · rw [irrigation_mem_iff]
    rintro ⟨-, hall, -⟩
    have hlen : i < (r.recent_vv_values.set i (-10)).length := by
      simpa using hi
    have hget : (r.recent_vv_values.set i (-10)).get ⟨i, hlen⟩ = -10 :=
      List.get_set_eq hlen
    have hmem : (-10 : ℚ) ∈ r.recent_vv_values.set i (-10) := by
      have hm := List.get_mem (r.recent_vv_values.set i (-10)) i hlen
      rwa [hget] at hm
    exact absurd (hall _ hmem) (by decide)

/-- Witness for C3, at the spec's own example: `recent_vv_values =
[-15, -16, -14.5]` with precipitation 8 fires the action, a 2-entry series
does not, and setting the middle entry to -10 suppresses it. -/
theorem irrigation_rule_characterization_witness :
    irrigationMsg ∈ generate_prescription ⟨8, 0, 0, 1, 0, [], [-15, -16, mkRat (-29) 2]⟩
    ∧ irrigationMsg ∉ generate_prescription ⟨8, 0, 0, 1, 0, [], [-15, -16]⟩
    ∧ irrigationMsg ∉ generate_prescription
        ⟨8, 0, 0, 1, 0, [], ([-15, -16, mkRat (-29) 2] : List ℚ).set 1 (-10)⟩ :=
  ⟨(irrigation_rule_characterization _).1.mpr ⟨by decide, by decide, by decide⟩,
    (irrigation_rule_characterization _).2.1 (by decide),
    (irrigation_rule_characterization ⟨8, 0, 0, 1, 0, [], [-15, -16, mkRat (-29) 2]⟩).2.2
      1 (by decide)⟩

/-- C4: the output of `generate_prescription` is never empty, and it is
exactly the single normal-status message precisely when none of the three
rules fired. -/
theorem normal_fallback_characterization (r : MetricsRecord) :
    generate_prescription r ≠ []
    ∧ (generate_prescription r = [normalMsg] ↔
        analyze_fire_risk r.nbr_mean = none
        ∧ analyze_water_stress r.ndvi_series r.precipitation_sum_7d = none
        ∧ analyze_irrigation_need r.recent_vv_values r.precipitation_sum_7d = none) := by
  unfold generate_prescription
  rcases hF : analyze_fire_risk r.nbr_mean with _ | f
  · rcases hW : analyze_water_stress r.ndvi_series r.precipitation_sum_7d with _ | w
    · rcases hI : analyze_irrigation_need r.recent_vv_values r.precipitation_sum_7d with _ | i
      · simp
      · obtain ⟨-, -, -, rfl⟩ := (irrigation_some_iff _ _ _).mp hI
        simp [irrigationMsg_ne_normalMsg]
    · rcases hI : analyze_irrigation_need r.recent_vv_values r.precipitation_sum_7d with _ | i
      · rcases ((water_some_iff _ _ _).mp hW).2.2 with ⟨-, rfl⟩ | ⟨-, rfl⟩
        · simp [nutritionalMsg_ne_normalMsg]
        · simp [waterStressMsg_ne_normalMsg]
      · simp
  · rcases hW : analyze_water_stress r.ndvi_series r.precipitation_sum_7d with _ | w <;>
      rcases hI : analyze_irrigation_need r.recent_vv_values r.precipitation_sum_7d with _ | i
    · obtain ⟨-, rfl⟩ := (fire_some_iff _ _).mp hF
      simp [fireRiskMsg_ne_normalMsg]
    · simp
    · simp
    · simp

/-- Witness for C4: a record on which no rule fires yields exactly the
normal-status message. -/
theorem normal_fallback_witness :
    generate_prescription ⟨0, 0, 0, 1, 0, [], []⟩ = [normalMsg] :=
  (normal_fallback_characterization _).2.mpr ⟨by decide, by decide, by decide⟩

/-! ### Claims C5, C7: consolidation shape and missing-data policy -/

/-- C5: for every combination of collector outcomes the consolidated record
is the fully-shaped seven-field record, and a collector that raised (hence
returned its error record) contributes scalar fields equal to 0 and empty
series fields. -/
theorem consolidated_record_fully_shaped (e : String)
    (pr : PrecipResult) (rr : RadarResult) (orr : OpticalResult)
    (p7 p30 : Option ℚ) (stats : RadarStats) (vs : List ℚ)
    (ostats : OpticalStats) (nl : Option (List ℚ)) :
    (consolidate pr rr orr =
      MetricsRecord.mk pr.precip7d pr.precip30d orr.ndvi_mean orr.nbr_mean
        rr.rvi_mean orr.ndvi_series rr.recent_vv_values)
    ∧ get_precipitation_data (some e) p7 p30 = PrecipResult.error e
    ∧ get_radar_data (some e) stats vs = RadarResult.error e
    ∧ get_optical_data (some e) ostats nl = OpticalResult.error e
    ∧ (consolidate (PrecipResult.error e) rr orr).precipitation_sum_7d = 0
    ∧ (consolidate (PrecipResult.error e) rr orr).precipitation_sum_30d = 0
    ∧ (consolidate pr (RadarResult.error e) orr).rvi_mean = 0
    ∧ (consolidate pr (RadarResult.error e) orr).recent_vv_values = []
    ∧ (consolidate pr rr (OpticalResult.error e)).ndvi_mean = 0
    ∧ (consolidate pr rr (OpticalResult.error e)).nbr_mean = 0
    ∧ (consolidate pr rr (OpticalResult.error e)).ndvi_series = [] :=
  ⟨rfl, rfl, rfl, rfl, rfl, rfl, rfl, rfl, rfl, rfl, rfl⟩

/-- C7: in every collector, a null region-reduction result enters the
collector's record as 0, for each of the seven scalar fields named in the
missing-data policy. -/
theorem missing_data_policy_zero (p7 p30 vv vh rvi ndvi nbr : Option ℚ)
    (vs : List ℚ) (nl : Option (List ℚ)) :
    (get_precipitation_data none none p30).precip7d = 0
    ∧ (get_precipitation_data none p7 none).precip30d = 0
    ∧ (get_radar_data none (RadarStats.mk none vh rvi) vs).vv_mean = 0
    ∧ (get_radar_data none (RadarStats.mk vv none rvi) vs).vh_mean = 0
    ∧ (get_radar_data none (RadarStats.mk vv vh none) vs).rvi_mean = 0
    ∧ (get_optical_data none (OpticalStats.mk none nbr) nl).ndvi_mean = 0
    ∧ (get_optical_data none (OpticalStats.mk ndvi none) nl).nbr_mean = 0 :=
  ⟨rfl, rfl, rfl, rfl, rfl, rfl, rfl⟩

/-! ### Claim C8: the stored notification flag -/

/-- C8 (code bug in src/main.py line 106): `save_analysis_result` stores the
literal `'email_enviado': True`, so on a run whose notification send failed
(`email_sent = false`) the stored history entry still carries a true flag. -/
theorem email_flag_stored_true_on_failed_send :
    (process_single_farm_history (MetricsRecord.mk 0 0 0 1 0 [] [])
        [normalMsg] false).email_enviado = true :=
  rfl

/-! ### Claims C6, C10: the registration endpoint -/

/-- Counterexample to C6 as stated: a registration whose polygon has only
two vertices is not rejected with the malformed-input error — the farm is
saved, the analysis is attempted (and may itself fail on the degenerate
geometry), and the endpoint answers 200. -/
theorem two_vertex_polygon_not_rejected :
    agroscan_monitor
        (some (RegistrationRequest.mk (some "a@b.com") (some "Fazenda X")
          (some [(0, 0), (1, 1)])))
        (Except.ok "farm-1")
        (fun fid => FarmResult.error fid "Fazenda X" "geometry error")
      = MonitorResponse.registered "farm-1"
          (FarmResult.error "farm-1" "Fazenda X" "geometry error") :=
  rfl

/-- Unfolding of `agroscan_monitor` on a parsed request: the Python
`if not all([...])` guard, then the save outcome. -/
lemma agroscan_monitor_some_eq (req : RegistrationRequest)
    (save_farm : Except String String) (process : String → FarmResult) :
    agroscan_monitor (some req) save_farm process =
      if pyTruthyStr req.email && pyTruthyStr req.nome_fazenda
          && pyTruthyCoords req.coordinates then
        match save_farm with
        | Except.error e => MonitorResponse.saveFailed e
        | Except.ok fid => MonitorResponse.registered fid (process fid)
      else MonitorResponse.badRequest "Dados incompletos" := by
  unfold agroscan_monitor
  cases h : (pyTruthyStr req.email && pyTruthyStr req.nome_fazenda
      && pyTruthyCoords req.coordinates) <;> simp [h]

/-- C6 amended: for every parsed request, registration answers the
malformed-input error exactly when the email, the farm name or the
coordinates entry is missing or empty (Python falsy) — for any behaviour of
the store and of the analysis, i.e. before either is consulted; when all
three are truthy the request is never rejected, whatever the vertex count:
the farm is saved and the analysis runs (or the save failure is answered
with 500). -/
theorem registration_input_validation (req : RegistrationRequest)
    (save_farm : Except String String) (process : String → FarmResult) :
    (agroscan_monitor (some req) save_farm process =
        MonitorResponse.badRequest "Dados incompletos"
      ↔ (pyTruthyStr req.email = false ∨ pyTruthyStr req.nome_fazenda = false
          ∨ pyTruthyCoords req.coordinates = false))
    ∧ (∀ fid, pyTruthyStr req.email = true → pyTruthyStr req.nome_fazenda = true →
        pyTruthyCoords req.coordinates = true → save_farm = Except.ok fid →
        agroscan_monitor (some req) save_farm process =
          MonitorResponse.registered fid (process fid))
    ∧ (∀ exn, pyTruthyStr req.email = true → pyTruthyStr req.nome_fazenda = true →
        pyTruthyCoords req.coordinates = true → save_farm = Except.error exn →
        agroscan_monitor (some req) save_farm process =
          MonitorResponse.saveFailed exn) := by
  refine ⟨⟨fun h => ?_, fun h => ?_⟩, fun fid h1 h2 h3 hs => ?_,
    fun exn h1 h2 h3 hs => ?_⟩
  · by_contra hcon
    have h1 : pyTruthyStr req.email = true := by
      cases he : pyTruthyStr req.email
      · exact absurd (Or.inl he) hcon
      · rfl
    have h2 : pyTruthyStr req.nome_fazenda = true := by
      cases hn : pyTruthyStr req.nome_fazenda
      · exact absurd (Or.inr (Or.inl hn)) hcon
      · rfl
    have h3 : pyTruthyCoords req.coordinates = true := by
      cases hc : pyTruthyCoords req.coordinates
      · exact absurd (Or.inr (Or.inr hc)) hcon
      · rfl
    rw [agroscan_monitor_some_eq, h1, h2, h3] at h
    cases save_farm <;> simp_all
  · rw [agroscan_monitor_some_eq]
    have hb : (pyTruthyStr req.email && pyTruthyStr req.nome_fazenda
        && pyTruthyCoords req.coordinates) = false := by
      rcases h with h | h | h <;> simp [h]
    rw [hb]
    simp
  · rw [agroscan_monitor_some_eq, h1, h2, h3, hs]
    simp
  · rw [agroscan_monitor_some_eq, h1, h2, h3, hs]
    simp

/-- Witness for the amended C6: a missing-email request and an
empty-polygon request are both rejected as incomplete, a two-vertex-polygon
request is registered and analysed, and with all fields truthy a store
failure is answered as a save failure. -/
theorem registration_input_validation_witness :
    agroscan_monitor
        (some (RegistrationRequest.mk none (some "Fazenda X")
          (some [(0, 0), (1, 1), (0, 1)])))
        (Except.ok "farm-1")
        (fun fid => FarmResult.success fid "Fazenda X" true true [normalMsg])
      = MonitorResponse.badRequest "Dados incompletos"
    ∧ agroscan_monitor
        (some (RegistrationRequest.mk (some "a@b.com") (some "Fazenda X") none))
        (Except.ok "farm-1")
        (fun fid => FarmResult.success fid "Fazenda X" true true [normalMsg])
      = MonitorResponse.badRequest "Dados incompletos"
    ∧ agroscan_monitor
        (some (RegistrationRequest.mk (some "a@b.com") (some "Fazenda X")
          (some [(0, 0), (1, 1)])))
        (Except.ok "farm-1")
        (fun fid => FarmResult.success fid "Fazenda X" true true [normalMsg])
      = MonitorResponse.registered "farm-1"
          (FarmResult.success "farm-1" "Fazenda X" true true [normalMsg])
    ∧ agroscan_monitor
        (some (RegistrationRequest.mk (some "a@b.com") (some "Fazenda X")
          (some [(0, 0), (1, 1)])))
        (Except.error "db down")
        (fun fid => FarmResult.success fid "Fazenda X" true true [normalMsg])
      = MonitorResponse.saveFailed "db down" :=
  ⟨(registration_input_validation _ _ _).1.mpr (Or.inl rfl),
    (registration_input_validation _ _ _).1.mpr (Or.inr (Or.inr rfl)),
    (registration_input_validation _ _ _).2.1 "farm-1" rfl rfl rfl rfl,
    (registration_input_validation _ _ _).2.2 "db down" rfl rfl rfl rfl⟩

/-- C10: whenever the farm is saved successfully, the endpoint answers 200
with overall status success and the fixed success message, for every
embedded analysis outcome — also one whose status is error. -/
theorem registration_response_ignores_analysis (req : RegistrationRequest)
    (process : String → FarmResult) (fid : String)
    (h1 : pyTruthyStr req.email = true) (h2 : pyTruthyStr req.nome_fazenda = true)
    (h3 : pyTruthyCoords req.coordinates = true) :
    (agroscan_monitor (some req) (Except.ok fid) process).code = 200
    ∧ (agroscan_monitor (some req) (Except.ok fid) process).statusStr = some "success"
    ∧ (agroscan_monitor (some req) (Except.ok fid) process).message =
        some successMessage := by
  unfold agroscan_monitor
  simp [h1, h2, h3, MonitorResponse.code, MonitorResponse.statusStr,
    MonitorResponse.message]

/-- Witness for C10: a registered farm whose first analysis errors still
gets the 200 / success / fixed-message response. -/
theorem registration_response_ignores_analysis_witness :
    (agroscan_monitor
        (some (RegistrationRequest.mk (some "a@b.com") (some "Fazenda X")
          (some [(0, 0), (1, 1), (0, 1)])))
        (Except.ok "farm-1")
        (fun fid => FarmResult.error fid "Fazenda X" "collector down")).code = 200
    ∧ (agroscan_monitor
        (some (RegistrationRequest.mk (some "a@b.com") (some "Fazenda X")
          (some [(0, 0), (1, 1), (0, 1)])))
        (Except.ok "farm-1")
        (fun fid => FarmResult.error fid "Fazenda X" "collector down")).statusStr
      = some "success"
    ∧ (agroscan_monitor
        (some (RegistrationRequest.mk (some "a@b.com") (some "Fazenda X")
          (some [(0, 0), (1, 1), (0, 1)])))
        (Except.ok "farm-1")
        (fun fid => FarmResult.error fid "Fazenda X" "collector down")).message
      = some successMessage :=
  registration_response_ignores_analysis _ _ "farm-1" rfl rfl rfl

/-! ### Claim C9: batch monitoring -/

lemma monitorLoop_results (process : Farm → ProcessOutcome) (farms : List Farm) :
    (monitorLoop process farms).1 =
      farms.map (fun farm => farmEntry farm (process farm)) := by
  induction farms with
  | nil => rfl
  | cons farm rest ih => simp [monitorLoop, ih]

lemma monitorLoop_counts (process : Farm → ProcessOutcome) (farms : List Farm) :
    (monitorLoop process farms).2.1 + (monitorLoop process farms).2.2 =
      farms.length := by
  induction farms with
  | nil => rfl
  | cons farm rest ih =>
    simp only [monitorLoop, List.length_cons]
    split_ifs <;> omega

/-- C9: the batch handler always reports success (it does not raise); with
no active farms it reports zero farms processed; otherwise the summary has
one result per farm in order — each depending only on that farm's own
outcome, a raised exception being isolated into that farm's error entry —
and the success and error counters sum to the number of farms. -/
theorem daily_monitoring_batch_isolation (process : Farm → ProcessOutcome)
    (active_farms : List Farm) :
    (daily_monitoring process active_farms).status = "success"
    ∧ (active_farms = [] →
        (daily_monitoring process active_farms).farms_processed = some 0)
    ∧ (active_farms ≠ [] →
        (daily_monitoring process active_farms).total_farms =
            some active_farms.length
        ∧ (daily_monitoring process active_farms).results =
            some (active_farms.map (fun farm => farmEntry farm (process farm)))
        ∧ ∃ s e,
            (daily_monitoring process active_farms).successful_analyses = some s
            ∧ (daily_monitoring process active_farms).error_analyses = some e
            ∧ s + e = active_farms.length)
    ∧ (∀ farm exn, farmEntry farm (ProcessOutcome.raised exn) =
        FarmResult.error farm.farm_id farm.nome_fazenda exn) := by
  rcases active_farms with _ | ⟨farm, rest⟩
  · exact ⟨rfl, fun _ => rfl, fun h => absurd rfl h, fun farm exn => rfl⟩
  · refine ⟨rfl, fun h => List.noConfusion h, fun _ => ⟨rfl, ?_, ?_⟩,
      fun farm exn => rfl⟩
    · simp only [daily_monitoring, List.isEmpty_cons, Bool.false_eq_true,
        if_false, monitorLoop_results]
    · exact ⟨(monitorLoop process (farm :: rest)).2.1,
        (monitorLoop process (farm :: rest)).2.2, rfl, rfl,
        monitorLoop_counts process (farm :: rest)⟩

/-- Witness for C9: an empty batch reports zero farms; a two-farm batch in
which the second farm's processing raises still yields both results in
order, the second marked as an error, with counters 1 and 1. -/
theorem daily_monitoring_batch_isolation_witness :
    (daily_monitoring (fun _ => ProcessOutcome.raised "boom") []).farms_processed
      = some 0
    ∧ (daily_monitoring
        (fun farm => if farm.farm_id = "id2" then ProcessOutcome.raised "boom"
          else ProcessOutcome.returned
            (FarmResult.success farm.farm_id farm.nome_fazenda true true [normalMsg]))
        [Farm.mk "id1" "a@b.com" "F1" [(0, 0), (1, 1), (0, 1)],
          Farm.mk "id2" "c@d.com" "F2" [(0, 0), (1, 1), (0, 1)]]).results
      = some [FarmResult.success "id1" "F1" true true [normalMsg],
          FarmResult.error "id2" "F2" "boom"] :=
  ⟨(daily_monitoring_batch_isolation (fun _ => ProcessOutcome.raised "boom") []).2.1 rfl,
    ((daily_monitoring_batch_isolation
        (fun farm => if farm.farm_id = "id2" then ProcessOutcome.raised "boom"
          else ProcessOutcome.returned
            (FarmResult.success farm.farm_id farm.nome_fazenda true true [normalMsg]))
        [Farm.mk "id1" "a@b.com" "F1" [(0, 0), (1, 1), (0, 1)],
          Farm.mk "id2" "c@d.com" "F2" [(0, 0), (1, 1), (0, 1)]]).2.2.1
      (List.cons_ne_nil _ _)).2.1.trans (by decide)⟩

end AgroScan
